import Mathlib

/-!
Verification of the QiFlow heartbeat / project-tracking core.

This file gives a shallow embedding, in Lean 4, of the functions of
`core/heartbeat.py` and `core/project_tracker.py` that the specification
talks about, and proves (or refutes) the specified properties.

Modelling conventions:
* Python `float` arithmetic on the small quantities involved here
  (percentages, hour counts, per-day rates) is modelled with exact
  rationals; `round(x, 2)` is modelled as rational rounding to two
  decimal places with ties to even, and `int(x)` as truncation toward
  zero.
* Timestamps (`datetime` values) are modelled as integer seconds;
  `timedelta.days` is floor division by 86400, which on `ℤ` is `/`
  (Euclidean division, equal to floor division for a positive divisor).
* GitHub issue dictionaries are modelled by the `Issue` structure, whose
  fields are exactly the keys the embedded code reads; a missing or
  unparsable `closed_at` is `none`.
-/

namespace QiFlow

/-- Rounding of a rational to the nearest integer with ties to even,
matching Python `round` on exactly representable inputs. -/
def roundHalfEven (q : ℚ) : ℤ :=
  let f := ⌊q⌋
  let r := q - f
  if r < 1/2 then f
  else if 1/2 < r then f + 1
  else if f % 2 = 0 then f else f + 1

/-- Python `round(x, 2)`, modelled on exact rationals. -/
def round2 (q : ℚ) : ℚ := (roundHalfEven (q * 100) : ℚ) / 100

/-- Python `int(x)` on a real quantity: truncation toward zero. -/
def pyInt (q : ℚ) : ℤ := if q < 0 then ⌈q⌉ else ⌊q⌋

/-- Python `str.lower`, modelled charwise (the labels involved are
ASCII). -/
def pyLower (s : String) : String := String.mk (s.data.map Char.toLower)

/-- Python truthiness of an optional string: `None` and `""` are falsy. -/
def pyTruthyStr : Option String → Bool
  | none => false
  | some s => s ≠ ""

/-- One GitHub issue record, with exactly the fields the embedded code
reads.  `pull_request` models the presence of the `pull_request` key in
the raw GitHub payload (true for pull requests, false for issues). -/
structure Issue where
  number : ℕ
  title : String
  state : String
  labels : List String
  created_at : ℤ
  updated_at : ℤ
  closed_at : Option ℤ
  comments : ℕ
  html_url : String
  pull_request : Bool
deriving DecidableEq

/-- Result record of `ProjectTracker._calculate_issue_metrics`.
`ready_issues` is an integer because the source computes it as
`open - in_progress - blocked`, which can go negative when label sets
overlap. -/
structure IssueMetrics where
  total_issues : ℕ
  completed_issues : ℕ
  in_progress_issues : ℕ
  ready_issues : ℤ
  blocked_issues : ℕ
  completion_percentage : ℚ
deriving DecidableEq

/-- Label names that mark an issue as in progress (lower-cased). -/
def inProgressLabels : List String := ["in progress", "in-progress", "wip"]

/-- Label names that mark an issue as blocked (lower-cased). -/
def blockedLabels : List String := ["blocked", "waiting", "on-hold"]

/-- Embedding of `ProjectTracker._calculate_issue_metrics`. -/
def calculateIssueMetrics (issues : List Issue) : IssueMetrics :=
  let total := issues.length
  let completed := (issues.filter (fun i => i.state = "closed")).length
  let openCount := (issues.filter (fun i => i.state = "open")).length
  let inProgress := (issues.filter (fun i => i.state = "open" ∧
      (i.labels.map pyLower).any (fun l => inProgressLabels.contains l))).length
  let blocked := (issues.filter (fun i => i.state = "open" ∧
      (i.labels.map pyLower).any (fun l => blockedLabels.contains l))).length
  let pct : ℚ := if total > 0 then (completed : ℚ) / total * 100 else 0
  { total_issues := total
    completed_issues := completed
    in_progress_issues := inProgress
    ready_issues := (openCount : ℤ) - inProgress - blocked
    blocked_issues := blocked
    completion_percentage := round2 pct }

lemma roundHalfEven_ge_floor (q : ℚ) : ⌊q⌋ ≤ roundHalfEven q := by
  unfold roundHalfEven
  dsimp only
  split
  · exact le_refl _
  · split
    · omega
    · split <;> omega

lemma roundHalfEven_nonneg {q : ℚ} (h : 0 ≤ q) : 0 ≤ roundHalfEven q :=
  le_trans (by exact_mod_cast Int.le_floor.mpr (by exact_mod_cast h)) (roundHalfEven_ge_floor q)

lemma roundHalfEven_le_int {q : ℚ} {n : ℤ} (h : q ≤ n) : roundHalfEven q ≤ n := by
  have hf : ⌊q⌋ ≤ n := by
    have : ⌊q⌋ ≤ ⌊(n : ℚ)⌋ := Int.floor_le_floor h
    simpa using this
  unfold roundHalfEven
  dsimp only
  split
  · exact hf
  · rename_i h1
    push_neg at h1
    have hlt : (⌊q⌋ : ℚ) < q := by
      have : (⌊q⌋ : ℚ) + 1/2 ≤ q := by linarith
      linarith
    have hflt : ⌊q⌋ < n := by
      have : (⌊q⌋ : ℚ) < (n : ℚ) := lt_of_lt_of_le hlt h
      exact_mod_cast this
    split
    · omega
    · split <;> omega

lemma round2_nonneg {q : ℚ} (h : 0 ≤ q) : 0 ≤ round2 q := by
  unfold round2
  have h1 : (0 : ℤ) ≤ roundHalfEven (q * 100) :=
    roundHalfEven_nonneg (by positivity)
  have h2 : (0 : ℚ) ≤ (roundHalfEven (q * 100) : ℚ) := by exact_mod_cast h1
  positivity

lemma round2_le_int {q : ℚ} {n : ℤ} (h : q ≤ n) : round2 q ≤ n := by
  unfold round2
  have h1 : roundHalfEven (q * 100) ≤ 100 * n := by
    apply roundHalfEven_le_int
    push_cast
    linarith
  have h2 : (roundHalfEven (q * 100) : ℚ) ≤ ((100 * n : ℤ) : ℚ) := by exact_mod_cast h1
  rw [div_le_iff₀ (by norm_num : (0:ℚ) < 100)]
  push_cast at h2 ⊢
  linarith

lemma round2_zero : round2 0 = 0 := by norm_num [round2, roundHalfEven]

/-- Sample open issue used in concrete statements. -/
def sampleOpen : Issue :=
  { number := 1, title := "t", state := "open", labels := [], created_at := 0,
    updated_at := 0, closed_at := none, comments := 0, html_url := "u",
    pull_request := false }

/-- Sample closed issue (closed at time `t`) used in concrete statements. -/
def sampleClosedAt (t : ℤ) : Issue :=
  { number := 2, title := "c", state := "closed", labels := [], created_at := 0,
    updated_at := 0, closed_at := some t, comments := 0, html_url := "u",
    pull_request := false }

/-- C2, counterexample: a single open issue has completion percentage 0
while its total is 1 ≠ 0, so the percentage is not 0 `exactly when`
the total is 0. -/
theorem completion_zero_not_iff_total_zero :
    (calculateIssueMetrics [sampleOpen]).completion_percentage = 0 ∧
    (calculateIssueMetrics [sampleOpen]).total_issues ≠ 0 := by
  constructor
  · simp [calculateIssueMetrics, sampleOpen]
    norm_num [round2, roundHalfEven]
  · decide

/-- C2 (amended): the completion percentage equals
`round2 (completed / total * 100)` when the total is positive, is 0 when
the total is 0 (and also whenever no issue is completed), and always lies
between 0 and 100. -/
theorem completion_percentage_spec (issues : List Issue) :
    (calculateIssueMetrics issues).total_issues = issues.length ∧
    (issues.length ≠ 0 →
      (calculateIssueMetrics issues).completion_percentage =
        round2 (((calculateIssueMetrics issues).completed_issues : ℚ) / issues.length * 100)) ∧
    (issues.length = 0 → (calculateIssueMetrics issues).completion_percentage = 0) ∧
    ((issues.filter (fun i => i.state = "closed")).length = 0 →
      (calculateIssueMetrics issues).completion_percentage = 0) ∧
    0 ≤ (calculateIssueMetrics issues).completion_percentage ∧
    (calculateIssueMetrics issues).completion_percentage ≤ 100 := by
  have hle : (issues.filter (fun i => i.state = "closed")).length ≤ issues.length :=
    List.length_filter_le _ _
  unfold calculateIssueMetrics
  dsimp only
  refine ⟨rfl, ?_, ?_, ?_, ?_, ?_⟩
  · intro h
    simp [Nat.pos_of_ne_zero h]
  · intro h
    simp only [h, Nat.lt_irrefl, if_neg (by omega : ¬ (0:ℕ) < 0)]
    simpa using round2_zero
  · intro h
    rw [h]
    split
    · simp only [Nat.cast_zero, zero_div, zero_mul]
      exact round2_zero
    · exact round2_zero
  · apply round2_nonneg
    split
    · rename_i hpos
      have : (0:ℚ) ≤ ((issues.filter (fun i => i.state = "closed")).length : ℚ) / issues.length :=
        by positivity
      linarith
    · exact le_refl 0
  · apply round2_le_int (n := 100)
    split
    · rename_i hpos
      have hq : ((issues.filter (fun i => i.state = "closed")).length : ℚ) / issues.length ≤ 1 := by
        rw [div_le_one (by exact_mod_cast hpos)]
        exact_mod_cast hle
      push_cast
      nlinarith
    · norm_num

/-- C2, witness for the hypotheses of `completion_percentage_spec`:
instantiated at a one-element list containing a closed issue, where the
percentage is 100. -/
theorem completion_percentage_spec_witness :
    (calculateIssueMetrics [sampleClosedAt 0]).completion_percentage =
      round2 (((calculateIssueMetrics [sampleClosedAt 0]).completed_issues : ℚ) / 1 * 100) ∧
    (calculateIssueMetrics [sampleClosedAt 0]).completion_percentage = 100 := by
  have h := (completion_percentage_spec [sampleClosedAt 0]).2.1 (by decide)
  refine ⟨by simpa using h, ?_⟩
  rw [h]
  have hc : (calculateIssueMetrics [sampleClosedAt 0]).completed_issues = 1 := by decide
  rw [hc]
  norm_num [round2, roundHalfEven]

/-- Result record of `ProjectTracker._calculate_velocity`. -/
structure VelocityResult where
  issues_per_day : ℚ
  last_7_days : List ℕ
  trend : String
  total_closed_in_period : ℕ
deriving DecidableEq

/-- Trend classification tail of `_calculate_velocity`.  The source
compares Python ints against `first_half * 1.2` and `first_half * 0.8`
in floats; on the integer bucket sums arising here the float comparisons
agree with the exact rational ones, so the constants are modelled as
`6/5` and `4/5`. -/
def trendOf (daily_counts : List ℕ) : String :=
  if 3 ≤ daily_counts.length then
    let first : ℚ := ((daily_counts.take (daily_counts.length / 2)).sum : ℚ)
    let second : ℚ := ((daily_counts.drop (daily_counts.length / 2)).sum : ℚ)
    if first * (6/5) < second then "increasing"
    else if second < first * (4/5) then "decreasing"
    else "stable"
  else "stable"

/-- One iteration of the daily-bucket loop of `_calculate_velocity`:
`day_index = (now - closed_at).days`, and the bucket
`days - 1 - day_index` is incremented when `0 <= day_index < days`. -/
def velStep (now : ℤ) (days : ℕ) (counts : List ℕ) (t : ℤ) : List ℕ :=
  let d := (now - t) / 86400
  if 0 ≤ d ∧ d < (days : ℤ) then
    counts.set (days - 1 - d.toNat) (counts.getD (days - 1 - d.toNat) 0 + 1)
  else counts

/-- Closed-at times of issues that are closed, have a parsable
`closed_at`, and fall within the trailing window
(`closed_at >= now - days`). -/
def recentClosedTimes (issues : List Issue) (now : ℤ) (days : ℕ) : List ℤ :=
  issues.filterMap (fun i =>
    if i.state = "closed" then
      match i.closed_at with
      | some t => if now - (days : ℤ) * 86400 ≤ t then some t else none
      | none => none
    else none)

/-- Embedding of `ProjectTracker._calculate_velocity`. -/
def calculateVelocity (issues : List Issue) (now : ℤ) (days : ℕ) : VelocityResult :=
  let recent := recentClosedTimes issues now days
  let counts := recent.foldl (velStep now days) (List.replicate days 0)
  let ipd : ℚ := if 0 < days then (recent.length : ℚ) / days else 0
  { issues_per_day := round2 ipd
    last_7_days := counts
    trend := trendOf counts
    total_closed_in_period := recent.length }

/-- C3: the trend computed by `_calculate_velocity` is `increasing` iff
the second-half bucket sum strictly exceeds 1.2 times the first-half sum,
`decreasing` iff it is strictly below 0.8 times the first-half sum, and
`stable` otherwise; in particular at a ratio of exactly 1.2 the trend is
not `increasing` and at exactly 0.8 it is not `decreasing`. -/
theorem velocity_trend_boundaries (counts : List ℕ) (h : 3 ≤ counts.length) :
    (trendOf counts = "increasing" ↔
      ((counts.take (counts.length / 2)).sum : ℚ) * (6/5) <
        ((counts.drop (counts.length / 2)).sum : ℚ)) ∧
    (trendOf counts = "decreasing" ↔
      ((counts.drop (counts.length / 2)).sum : ℚ) <
        ((counts.take (counts.length / 2)).sum : ℚ) * (4/5)) ∧
    (trendOf counts = "stable" ↔
      (¬ ((counts.take (counts.length / 2)).sum : ℚ) * (6/5) <
          ((counts.drop (counts.length / 2)).sum : ℚ) ∧
       ¬ ((counts.drop (counts.length / 2)).sum : ℚ) <
          ((counts.take (counts.length / 2)).sum : ℚ) * (4/5))) ∧
    (((counts.drop (counts.length / 2)).sum : ℚ) =
        ((counts.take (counts.length / 2)).sum : ℚ) * (6/5) →
      trendOf counts ≠ "increasing") ∧
    (((counts.drop (counts.length / 2)).sum : ℚ) =
        ((counts.take (counts.length / 2)).sum : ℚ) * (4/5) →
      trendOf counts ≠ "decreasing") ∧
    (∀ issues now days, (calculateVelocity issues now days).trend =
      trendOf ((calculateVelocity issues now days).last_7_days)) := by
  have hrw : trendOf counts =
      (if ((counts.take (counts.length / 2)).sum : ℚ) * (6/5) <
          ((counts.drop (counts.length / 2)).sum : ℚ) then "increasing"
       else if ((counts.drop (counts.length / 2)).sum : ℚ) <
          ((counts.take (counts.length / 2)).sum : ℚ) * (4/5) then "decreasing"
       else "stable") := by
    unfold trendOf
    rw [if_pos h]
  by_cases h1 : ((counts.take (counts.length / 2)).sum : ℚ) * (6/5) <
      ((counts.drop (counts.length / 2)).sum : ℚ)
  · rw [hrw, if_pos h1]
    refine ⟨iff_of_true rfl h1, ?_, ?_, ?_, ?_, fun _ _ _ => rfl⟩
    · refine iff_of_false (by decide) (fun hc => ?_)
      have hfs : (0:ℚ) ≤ ((counts.take (counts.length / 2)).sum : ℚ) := by positivity
      nlinarith
    · exact iff_of_false (by decide) (fun hc => hc.1 h1)
    · intro heq
      exfalso
      rw [heq] at h1
      exact lt_irrefl _ h1
    · intro _
      decide
  · rw [hrw, if_neg h1]
    by_cases h2 : ((counts.drop (counts.length / 2)).sum : ℚ) <
        ((counts.take (counts.length / 2)).sum : ℚ) * (4/5)
    · rw [if_pos h2]
      refine ⟨iff_of_false (by decide) h1, iff_of_true rfl h2,
        iff_of_false (by decide) (fun hc => hc.2 h2), fun _ => by decide, ?_,
        fun _ _ _ => rfl⟩
      intro heq
      exfalso
      rw [heq] at h2
      exact lt_irrefl _ h2
    · rw [if_neg h2]
      exact ⟨iff_of_false (by decide) h1, iff_of_false (by decide) h2,
        iff_of_true rfl ⟨h1, h2⟩, fun _ => by decide, fun _ => by decide,
        fun _ _ _ => rfl⟩

/-- C3, witness: a seven-day window whose second-half sum is exactly 1.2
times the first-half sum is not classified `increasing`, and one whose
second-half sum is exactly 0.8 times the first-half sum is not
classified `decreasing`. -/
theorem velocity_trend_boundaries_witness :
    trendOf [5, 0, 0, 0, 0, 0, 6] ≠ "increasing" ∧
    trendOf [5, 0, 0, 4, 0, 0, 0] ≠ "decreasing" := by
  constructor
  · apply (velocity_trend_boundaries [5, 0, 0, 0, 0, 0, 6] (by decide)).2.2.2.1
    have ht : (List.take ([5, 0, 0, 0, 0, 0, 6].length / 2) [5, 0, 0, 0, 0, 0, 6]).sum = 5 := by
      decide
    have hd : (List.drop ([5, 0, 0, 0, 0, 0, 6].length / 2) [5, 0, 0, 0, 0, 0, 6]).sum = 6 := by
      decide
    rw [ht, hd]
    norm_num
  · apply (velocity_trend_boundaries [5, 0, 0, 4, 0, 0, 0] (by decide)).2.2.2.2.1
    have ht : (List.take ([5, 0, 0, 4, 0, 0, 0].length / 2) [5, 0, 0, 4, 0, 0, 0]).sum = 5 := by
      decide
    have hd : (List.drop ([5, 0, 0, 4, 0, 0, 0].length / 2) [5, 0, 0, 4, 0, 0, 0]).sum = 4 := by
      decide
    rw [ht, hd]
    norm_num

lemma velStep_length (now : ℤ) (days : ℕ) (acc : List ℕ) (t : ℤ) :
    (velStep now days acc t).length = acc.length := by
  unfold velStep
  dsimp only
  split
  · simp
  · rfl

lemma foldl_velStep_length (now : ℤ) (days : ℕ) (l : List ℤ) (acc : List ℕ) :
    (l.foldl (velStep now days) acc).length = acc.length := by
  induction l generalizing acc with
  | nil => rfl
  | cons t ts ih => rw [List.foldl_cons, ih, velStep_length]

lemma velStep_getD_eq (now : ℤ) (days : ℕ) (acc : List ℕ) (t : ℤ) (i : ℕ)
    (hi : i < days) (hp : (now - t) / 86400 = (days : ℤ) - 1 - i) :
    velStep now days acc t = acc.set i (acc.getD i 0 + 1) := by
  unfold velStep
  dsimp only
  rw [if_pos (by omega : 0 ≤ (now - t) / 86400 ∧ (now - t) / 86400 < (days : ℤ))]
  have hb : days - 1 - ((now - t) / 86400).toNat = i := by omega
  rw [hb]

lemma velStep_getD_ne (now : ℤ) (days : ℕ) (acc : List ℕ) (t : ℤ) (i : ℕ)
    (hi : i < days) (hp : (now - t) / 86400 ≠ (days : ℤ) - 1 - i) :
    (velStep now days acc t).getD i 0 = acc.getD i 0 := by
  unfold velStep
  dsimp only
  split
  · rename_i hc
    have hj : days - 1 - ((now - t) / 86400).toNat ≠ i := by omega
    simp [List.getD_eq_getElem?_getD, List.getElem?_set_ne hj]
  · rfl

lemma foldl_velStep_getD (now : ℤ) (days : ℕ) (l : List ℤ) (acc : List ℕ)
    (hacc : acc.length = days) (i : ℕ) (hi : i < days) :
    (l.foldl (velStep now days) acc).getD i 0 =
      acc.getD i 0 +
        (l.filter (fun t => (now - t) / 86400 = (days : ℤ) - 1 - i)).length := by
  induction l generalizing acc with
  | nil => simp
  | cons t ts ih =>
    rw [List.foldl_cons, List.filter_cons]
    by_cases hp : (now - t) / 86400 = (days : ℤ) - 1 - i
    · rw [velStep_getD_eq now days acc t i hi hp]
      rw [ih (acc.set i (acc.getD i 0 + 1)) (by simpa using hacc)]
      have hset : (acc.set i (acc.getD i 0 + 1)).getD i 0 = acc.getD i 0 + 1 := by
        simp [List.getD_eq_getElem?_getD, List.getElem?_set_self, hacc ▸ hi]
      rw [hset, if_pos (by simp only [decide_eq_true_eq]; exact hp)]
      simp
      omega
    · have hstep := velStep_getD_ne now days acc t i hi hp
      rw [ih (velStep now days acc t) (by rw [velStep_length]; exact hacc), hstep,
        if_neg (by simp only [decide_eq_true_eq]; exact hp)]

/-- Predicate: the issue is closed with a parsable `closed_at` whose
floored day offset from `now` is `days - 1 - i` (the day counted by
bucket `i`). -/
def closedOnDay (now : ℤ) (days i : ℕ) (iss : Issue) : Bool :=
  if iss.state = "closed" then
    match iss.closed_at with
    | some t => decide ((now - t) / 86400 = (days : ℤ) - 1 - i)
    | none => false
  else false

lemma recent_filter_eq_issues_filter (issues : List Issue) (now : ℤ) (days i : ℕ)
    (hi : i < days) :
    ((recentClosedTimes issues now days).filter
        (fun t => (now - t) / 86400 = (days : ℤ) - 1 - i)).length =
      (issues.filter (closedOnDay now days i)).length := by
  induction issues with
  | nil => rfl
  | cons iss rest ih =>
    rw [recentClosedTimes] at ih ⊢
    rw [List.filterMap_cons, List.filter_cons]
    by_cases hst : iss.state = "closed"
    · cases hca : iss.closed_at with
      | none =>
        simp only [if_pos hst, hca]
        rw [show closedOnDay now days i iss = false by
          unfold closedOnDay; rw [if_pos hst, hca]]
        exact ih
      | some t =>
        simp only [if_pos hst, hca]
        by_cases hcut : now - (days : ℤ) * 86400 ≤ t
        · rw [if_pos hcut, List.filter_cons]
          by_cases hp : (now - t) / 86400 = (days : ℤ) - 1 - i
          · rw [if_pos (by simp only [decide_eq_true_eq]; exact hp)]
            rw [show closedOnDay now days i iss = true by
              unfold closedOnDay; rw [if_pos hst, hca]; exact decide_eq_true hp]
            simpa using ih
          · rw [if_neg (by simp only [decide_eq_true_eq]; exact hp)]
            rw [show closedOnDay now days i iss = false by
              unfold closedOnDay; rw [if_pos hst, hca]; exact decide_eq_false hp]
            exact ih
        · rw [if_neg hcut]
          have hp : (now - t) / 86400 ≠ (days : ℤ) - 1 - i := by omega
          rw [show closedOnDay now days i iss = false by
            unfold closedOnDay; rw [if_pos hst, hca]; exact decide_eq_false hp]
          exact ih
    · simp only [if_neg hst]
      rw [show closedOnDay now days i iss = false by
        unfold closedOnDay; rw [if_neg hst]]
      exact ih

/-- C6 (amended): the per-day list produced by `_calculate_velocity`
always has length `days`; bucket `i` counts exactly the closed issues
whose floored day offset from now is `days - 1 - i` (oldest day first);
`total_closed_in_period` is the number of recently closed issues; and
`issues_per_day` is that number divided by `days`, rounded to two
decimal places. -/
theorem velocity_window_spec (issues : List Issue) (now : ℤ) (days : ℕ) :
    ((calculateVelocity issues now days).last_7_days).length = days ∧
    (∀ i, i < days →
      ((calculateVelocity issues now days).last_7_days).getD i 0 =
        (issues.filter (closedOnDay now days i)).length) ∧
    (calculateVelocity issues now days).total_closed_in_period =
      (recentClosedTimes issues now days).length ∧
    (0 < days → (calculateVelocity issues now days).issues_per_day =
      round2 (((recentClosedTimes issues now days).length : ℚ) / days)) := by
  refine ⟨?_, ?_, rfl, ?_⟩
  · show ((recentClosedTimes issues now days).foldl (velStep now days)
      (List.replicate days 0)).length = days
    rw [foldl_velStep_length, List.length_replicate]
  · intro i hi
    show ((recentClosedTimes issues now days).foldl (velStep now days)
      (List.replicate days 0)).getD i 0 = _
    rw [foldl_velStep_getD now days _ _ (List.length_replicate days 0) i hi,
      recent_filter_eq_issues_filter issues now days i hi]
    simp [List.getD_eq_getElem?_getD, List.getElem?_replicate, hi]
  · intro hd
    show round2 (if 0 < days then ((recentClosedTimes issues now days).length : ℚ) / days
      else 0) = _
    rw [if_pos hd]

/-- C6, counterexample: with one issue closed at `now` and a 7-day
window, the reported `issues_per_day` is `round(1/7, 2) = 0.14`, not
the exact quotient `1/7`. -/
theorem velocity_ipd_rounded_cex :
    (calculateVelocity [sampleClosedAt 0] 0 7).issues_per_day ≠ (1 : ℚ) / 7 ∧
    (calculateVelocity [sampleClosedAt 0] 0 7).total_closed_in_period = 1 := by
  have hr : recentClosedTimes [sampleClosedAt 0] 0 7 = [0] := by decide
  constructor
  · show round2 (if 0 < 7 then ((recentClosedTimes [sampleClosedAt 0] 0 7).length : ℚ) / 7
      else 0) ≠ (1 : ℚ) / 7
    rw [hr]
    norm_num [round2, roundHalfEven]
  · show (recentClosedTimes [sampleClosedAt 0] 0 7).length = 1
    rw [hr]
    rfl

/-- C6, witness for the hypotheses of `velocity_window_spec`:
instantiated at a single issue closed at `now` with the default 7-day
window, bucket 6 (the newest day) and the per-day rate equation. -/
theorem velocity_window_spec_witness :
    ((calculateVelocity [sampleClosedAt 0] 0 7).last_7_days).getD 6 0 =
      (([sampleClosedAt 0]).filter (closedOnDay 0 7 6)).length ∧
    (calculateVelocity [sampleClosedAt 0] 0 7).issues_per_day =
      round2 (((recentClosedTimes [sampleClosedAt 0] 0 7).length : ℚ) / 7) :=
  ⟨(velocity_window_spec [sampleClosedAt 0] 0 7).2.1 6 (by decide),
   (velocity_window_spec [sampleClosedAt 0] 0 7).2.2.2 (by decide)⟩

/-- Result record of `ProjectTracker._calculate_forecast`.
`estimated_completion_date` is modelled as the underlying instant
(seconds); the source formats it as a `%Y-%m-%d` string, which is
abstracted here. -/
structure ForecastResult where
  estimated_completion_date : Option ℚ
  days_remaining : Option ℤ
  confidence_level : ℚ
  confidence_label : String
deriving DecidableEq

/-- Embedding of `ProjectTracker._calculate_forecast`. -/
def calculateForecast (metrics : IssueMetrics) (velocity : VelocityResult)
    (now : ℚ) : ForecastResult :=
  let remaining : ℤ := (metrics.total_issues : ℤ) - metrics.completed_issues
  let ipd := velocity.issues_per_day
  if ipd ≤ 0 then
    { estimated_completion_date := none
      days_remaining := none
      confidence_level := 0
      confidence_label := "Unknown" }
  else
    let dr : ℚ := (remaining : ℚ) / ipd
    let confidence : ℚ :=
      if velocity.trend = "increasing" then 85/100
      else if velocity.trend = "stable" then 75/100
      else 1/2
    let label :=
      if 8/10 < confidence then "High"
      else if 6/10 < confidence then "Medium"
      else "Low"
    { estimated_completion_date := some (now + dr * 86400)
      days_remaining := some (pyInt dr)
      confidence_level := confidence
      confidence_label := label }

/-- Example velocity record used in concrete forecast statements. -/
def velocityWith (ipd : ℚ) (trend : String) : VelocityResult :=
  { issues_per_day := ipd, last_7_days := [0, 0, 0, 0, 0, 0, 0],
    trend := trend, total_closed_in_period := 0 }

/-- Example metrics record used in concrete forecast statements. -/
def metricsWith (total completed : ℕ) : IssueMetrics :=
  { total_issues := total, completed_issues := completed,
    in_progress_issues := 0, ready_issues := 0, blocked_issues := 0,
    completion_percentage := 0 }

/-- C4, counterexample: with 3 remaining issues and 2 issues per day the
returned `days_remaining` is the truncated `int(1.5) = 1`, not the exact
quotient 1.5 claimed. -/
theorem forecast_days_remaining_truncated_cex :
    (calculateForecast (metricsWith 3 0) (velocityWith 2 "stable") 0).days_remaining =
      some 1 ∧
    ((3 : ℚ) - 0) / 2 ≠ ((1 : ℤ) : ℚ) := by
  constructor
  · unfold calculateForecast metricsWith velocityWith
    dsimp only
    rw [if_neg (by norm_num : ¬ (2:ℚ) ≤ 0)]
    dsimp only
    have h2 : pyInt ((((3:ℕ) : ℤ) - ((0:ℕ) : ℤ) : ℤ) / (2:ℚ) : ℚ) = 1 := by
      norm_num [pyInt]
    rw [h2]
  · norm_num

/-- C4 (amended): when `issues_per_day ≤ 0` the forecast is the unknown
record (`none` date, `none` days, confidence 0, label Unknown);
otherwise the estimated date is `now + remaining/issues_per_day` days
(as an instant), the returned `days_remaining` is the
truncated-toward-zero integer part of that quotient, and confidence and
label follow the fixed trend mapping increasing to 0.85 High, stable to
0.75 Medium, decreasing to 0.50 Low (thresholds: above 0.80 High, above
0.60 Medium, else Low). -/
theorem forecast_spec (metrics : IssueMetrics) (velocity : VelocityResult) (now : ℚ) :
    (velocity.issues_per_day ≤ 0 →
      calculateForecast metrics velocity now =
        { estimated_completion_date := none, days_remaining := none,
          confidence_level := 0, confidence_label := "Unknown" }) ∧
    (0 < velocity.issues_per_day →
      (calculateForecast metrics velocity now).estimated_completion_date =
        some (now + (((metrics.total_issues : ℤ) - metrics.completed_issues : ℤ) : ℚ) /
          velocity.issues_per_day * 86400) ∧
      (calculateForecast metrics velocity now).days_remaining =
        some (pyInt ((((metrics.total_issues : ℤ) - metrics.completed_issues : ℤ) : ℚ) /
          velocity.issues_per_day)) ∧
      (velocity.trend = "increasing" →
        (calculateForecast metrics velocity now).confidence_level = 85/100 ∧
        (calculateForecast metrics velocity now).confidence_label = "High") ∧
      (velocity.trend = "stable" →
        (calculateForecast metrics velocity now).confidence_level = 75/100 ∧
        (calculateForecast metrics velocity now).confidence_label = "Medium") ∧
      (velocity.trend = "decreasing" →
        (calculateForecast metrics velocity now).confidence_level = 1/2 ∧
        (calculateForecast metrics velocity now).confidence_label = "Low")) := by
  constructor
  · intro h
    unfold calculateForecast
    rw [if_pos h]
  · intro h
    have hne : ¬ velocity.issues_per_day ≤ 0 := not_le.mpr h
    unfold calculateForecast
    rw [if_neg hne]
    dsimp only
    refine ⟨rfl, rfl, ?_, ?_, ?_⟩
    · intro ht
      rw [ht, if_pos rfl,
        if_pos (by norm_num : (8:ℚ)/10 < 85/100)]
      exact ⟨rfl, rfl⟩
    · intro ht
      rw [ht, if_neg (by decide : ¬ ("stable" : String) = "increasing"), if_pos rfl,
        if_neg (by norm_num : ¬ (8:ℚ)/10 < 75/100),
        if_pos (by norm_num : (6:ℚ)/10 < 75/100)]
      exact ⟨rfl, rfl⟩
    · intro ht
      rw [ht, if_neg (by decide : ¬ ("decreasing" : String) = "increasing"),
        if_neg (by decide : ¬ ("decreasing" : String) = "stable"),
        if_neg (by norm_num : ¬ (8:ℚ)/10 < 1/2),
        if_neg (by norm_num : ¬ (6:ℚ)/10 < 1/2)]
      exact ⟨rfl, rfl⟩

/-- C4, witness for the hypotheses of `forecast_spec`: at
`issues_per_day = 2`, 3 total and 0 completed issues and a stable trend
the forecast has the claimed date, truncated days, confidence 0.75 and
label Medium, and at `issues_per_day = 0` it is the unknown record. -/
theorem forecast_spec_witness :
    (calculateForecast (metricsWith 3 0) (velocityWith 0 "stable") 5 =
      { estimated_completion_date := none, days_remaining := none,
        confidence_level := 0, confidence_label := "Unknown" }) ∧
    (calculateForecast (metricsWith 3 0) (velocityWith 2 "stable") 5).confidence_level =
      75/100 ∧
    (calculateForecast (metricsWith 3 0) (velocityWith 2 "stable") 5).confidence_label =
      "Medium" := by
  refine ⟨(forecast_spec (metricsWith 3 0) (velocityWith 0 "stable") 5).1 (le_refl 0), ?_⟩
  have h := ((forecast_spec (metricsWith 3 0) (velocityWith 2 "stable") 5).2
    (by norm_num [velocityWith])).2.2.2.1 rfl
  exact h

/-- Label names that escalate an issue to critical priority. -/
def criticalLabels : List String := ["critical", "urgent", "p0", "p1"]

/-- Hours since the issue was last updated:
`(now - updated_at).total_seconds() / 3600`. -/
def hoursBlocked (now : ℤ) (iss : Issue) : ℚ := ((now - iss.updated_at : ℤ) : ℚ) / 3600

/-- Trigger rule (a) of `_flag_issues_for_intervention`: a
blocked/waiting/on-hold label and more than `flag_blocked_after_hours`
hours since the last update. -/
def blockedRule (now : ℤ) (bh : ℕ) (iss : Issue) : Bool :=
  (iss.labels.map pyLower).any (fun l => blockedLabels.contains l) &&
    decide ((bh : ℚ) < hoursBlocked now iss)

/-- Trigger rule (b): comment count above `flag_failures_threshold * 2`. -/
def commentRule (ft : ℕ) (iss : Issue) : Bool := ft * 2 < iss.comments

/-- Trigger rule (c): a critical/urgent/p0/p1 label. -/
def criticalRule (iss : Issue) : Bool :=
  (iss.labels.map pyLower).any (fun l => criticalLabels.contains l)

/-- Reason strings appended by the three trigger rules, in source order. -/
def reasonsOf (now : ℤ) (bh ft : ℕ) (iss : Issue) : List String :=
  (if blockedRule now bh iss then
    ["Blocked for " ++ toString (pyInt (hoursBlocked now iss)) ++ " hours"] else []) ++
  (if commentRule ft iss then
    ["High comment count (" ++ toString iss.comments ++ ")"] else []) ++
  (if criticalRule iss then ["High priority issue"] else [])

/-- Sequential priority escalation of `_flag_issues_for_intervention`:
start at low; rule (a) sets high; rule (b) raises low to medium only;
rule (c) sets critical. -/
def priorityOf (now : ℤ) (bh ft : ℕ) (iss : Issue) : String :=
  let p1 := if blockedRule now bh iss then "high" else "low"
  let p2 := if commentRule ft iss then (if p1 = "low" then "medium" else p1) else p1
  if criticalRule iss then "critical" else p2

/-- Severity ordering of priority strings: low < medium < high < critical. -/
def sev (p : String) : ℕ :=
  if p = "critical" then 3
  else if p = "high" then 2
  else if p = "medium" then 1
  else 0

/-- One flagged-issue record, with the fields built by
`_flag_issues_for_intervention`. -/
structure FlaggedIssue where
  number : ℕ
  title : String
  status : String
  priority : String
  flagged_for_intervention : Bool
  flag_priority : String
  flag_reason : String
  github_url : String
  created_at : ℤ
  updated_at : ℤ
deriving DecidableEq

/-- Embedding of the per-issue body of `_flag_issues_for_intervention`:
`none` when the issue is skipped, `some` flagged record otherwise. -/
def flagOne (now : ℤ) (bh ft : ℕ) (iss : Issue) : Option FlaggedIssue :=
  if iss.state = "open" then
    if reasonsOf now bh ft iss ≠ [] then
      some { number := iss.number
             title := iss.title
             status := if (iss.labels.map pyLower).contains "blocked"
               then "blocked" else "open"
             priority := priorityOf now bh ft iss
             flagged_for_intervention := true
             flag_priority := priorityOf now bh ft iss
             flag_reason := String.intercalate "; " (reasonsOf now bh ft iss)
             github_url := iss.html_url
             created_at := iss.created_at
             updated_at := iss.updated_at }
    else none
  else none

/-- Embedding of `ProjectTracker._flag_issues_for_intervention`. -/
def flagIssuesForIntervention (now : ℤ) (bh ft : ℕ) (issues : List Issue) :
    List FlaggedIssue :=
  issues.filterMap (flagOne now bh ft)

lemma reasonsOf_ne_nil_iff (now : ℤ) (bh ft : ℕ) (iss : Issue) :
    reasonsOf now bh ft iss ≠ [] ↔
      (blockedRule now bh iss || commentRule ft iss || criticalRule iss) = true := by
  unfold reasonsOf
  cases hb : blockedRule now bh iss <;> cases hc : commentRule ft iss <;>
    cases hk : criticalRule iss <;> simp

lemma priorityOf_sev (now : ℤ) (bh ft : ℕ) (iss : Issue) :
    sev (priorityOf now bh ft iss) =
      max (if blockedRule now bh iss then 2 else 0)
        (max (if commentRule ft iss then 1 else 0)
          (if criticalRule iss then 3 else 0)) := by
  unfold priorityOf
  cases hb : blockedRule now bh iss <;> cases hc : commentRule ft iss <;>
    cases hk : criticalRule iss <;> simp [sev]

/-- C5: `_flag_issues_for_intervention` never flags a non-open issue,
never flags an issue matching no trigger rule, flags every open issue
matching a rule with reasons joined by a semicolon-space separator and a
priority whose severity is the maximum over matched rules (blocked rule
severity high, comment rule medium, critical rule critical, under
low < medium < high < critical), records the blocked reason with the
truncated hour count, and gives priority at least high whenever the
blocked rule matched. -/
theorem flag_intervention_spec (now : ℤ) (bh ft : ℕ) (iss : Issue) :
    (iss.state ≠ "open" → flagOne now bh ft iss = none) ∧
    ((blockedRule now bh iss || commentRule ft iss || criticalRule iss) = false →
      flagOne now bh ft iss = none) ∧
    (iss.state = "open" →
      (blockedRule now bh iss || commentRule ft iss || criticalRule iss) = true →
      ∃ f, flagOne now bh ft iss = some f ∧
        f.flag_priority = priorityOf now bh ft iss ∧
        f.priority = f.flag_priority ∧
        sev f.flag_priority =
          max (if blockedRule now bh iss then 2 else 0)
            (max (if commentRule ft iss then 1 else 0)
              (if criticalRule iss then 3 else 0)) ∧
        f.flag_reason = String.intercalate "; " (reasonsOf now bh ft iss) ∧
        (blockedRule now bh iss = true →
          ("Blocked for " ++ toString (pyInt (hoursBlocked now iss)) ++ " hours") ∈
            reasonsOf now bh ft iss ∧
          2 ≤ sev f.flag_priority)) ∧
    (∀ issues, flagIssuesForIntervention now bh ft issues =
      issues.filterMap (flagOne now bh ft)) := by
  refine ⟨?_, ?_, ?_, fun _ => rfl⟩
  · intro h
    unfold flagOne
    rw [if_neg h]
  · intro h
    unfold flagOne
    split
    · rw [if_neg (by simp [reasonsOf_ne_nil_iff, h])]
    · rfl
  · intro hst hr
    unfold flagOne
    rw [if_pos hst, if_pos ((reasonsOf_ne_nil_iff now bh ft iss).mpr hr)]
    refine ⟨_, rfl, rfl, rfl, priorityOf_sev now bh ft iss, rfl, ?_⟩
    intro hb
    constructor
    · unfold reasonsOf
      rw [hb]
      simp
    · rw [priorityOf_sev now bh ft iss, hb]
      simp

/-- Sample open issue with a blocked label, last updated at time 0,
used in concrete statements. -/
def sampleBlocked : Issue :=
  { number := 7, title := "b", state := "open", labels := ["blocked"],
    created_at := 0, updated_at := 0, closed_at := none, comments := 0,
    html_url := "u", pull_request := false }

/-- C5, witness: an open issue labelled blocked and last updated 48
hours ago, with a 24-hour threshold, is flagged with priority of
severity at least high and reason `Blocked for 48 hours`. -/
theorem flag_intervention_spec_witness :
    ∃ f, flagOne 172800 24 3 sampleBlocked = some f ∧
      2 ≤ sev f.flag_priority ∧ f.flag_reason = "Blocked for 48 hours" := by
  have hblocked : blockedRule 172800 24 sampleBlocked = true := by
    unfold blockedRule
    rw [show ((sampleBlocked.labels.map pyLower).any
        (fun l => blockedLabels.contains l)) = true by decide, Bool.true_and]
    apply decide_eq_true
    unfold hoursBlocked
    simp only [sampleBlocked]
    norm_num
  have hcomment : commentRule 3 sampleBlocked = false := by decide
  have hcrit : criticalRule sampleBlocked = false := by decide
  have hhours : pyInt (hoursBlocked 172800 sampleBlocked) = 48 := by
    unfold hoursBlocked pyInt
    simp only [sampleBlocked]
    norm_num
  obtain ⟨f, hf, _, _, _, hreason, hmem⟩ :=
    (flag_intervention_spec 172800 24 3 sampleBlocked).2.2.1 rfl
      (by rw [hblocked]; rfl)
  refine ⟨f, hf, (hmem hblocked).2, ?_⟩
  rw [hreason]
  unfold reasonsOf
  simp only [hblocked, hcomment, hcrit, hhours, if_true, if_false]
  decide

/-- Outcome of one delivery attempt as seen by
`HeartbeatAgent.send_heartbeat`: an HTTP response with a status code, a
`requests` transport failure, or any other unexpected failure. -/
inductive AttemptOutcome where
  | status (code : ℕ)
  | requestError
  | unexpectedError
deriving DecidableEq

/-- Whether the retry loop proceeds to another attempt after this
outcome: a non-200 status or a transport failure is retried; a 200
returns and an unexpected failure aborts. -/
def continues : AttemptOutcome → Bool
  | .status c => c ≠ 200
  | .requestError => true
  | .unexpectedError => false

/-- Retry loop body of `send_heartbeat`: `resp i` is the outcome of
attempt `i`; returns the boolean result and how many attempts were made
(the second component is the absolute index after the last attempt). -/
def sendGo (resp : ℕ → AttemptOutcome) : ℕ → ℕ → Bool × ℕ
  | start, 0 => (false, start)
  | start, fuel + 1 =>
    match resp start with
    | .status c => if c = 200 then (true, start + 1) else sendGo resp (start + 1) fuel
    | .requestError => sendGo resp (start + 1) fuel
    | .unexpectedError => (false, start + 1)

/-- Embedding of `HeartbeatAgent.send_heartbeat`: returns immediately
when no monitor URL is configured, else runs up to `maxRetries`
attempts.  Result: (success, attempts made). -/
def sendHeartbeat (monitorUrl : Option String) (resp : ℕ → AttemptOutcome)
    (maxRetries : ℕ) : Bool × ℕ :=
  if pyTruthyStr monitorUrl then sendGo resp 0 maxRetries else (false, 0)

/-- Mock response sequence 503, 503, 200. -/
def mock503x2then200 : ℕ → AttemptOutcome :=
  fun i => if i < 2 then .status 503 else .status 200

/-- Mock response sequence of unbroken 503s. -/
def mock503 : ℕ → AttemptOutcome := fun _ => .status 503

lemma sendGo_of_success (resp : ℕ → AttemptOutcome) :
    ∀ (k start fuel : ℕ), k < fuel → resp (start + k) = .status 200 →
      (∀ j, j < k → continues (resp (start + j)) = true) →
      sendGo resp start fuel = (true, start + k + 1) := by
  intro k
  induction k with
  | zero =>
    intro start fuel hk h200 _
    obtain ⟨n, rfl⟩ : ∃ n, fuel = n + 1 := ⟨fuel - 1, by omega⟩
    rw [sendGo]
    rw [show resp start = .status 200 by simpa using h200]
    simp
  | succ k ih =>
    intro start fuel hk h200 hclean
    obtain ⟨n, rfl⟩ : ∃ n, fuel = n + 1 := ⟨fuel - 1, by omega⟩
    have hc0 : continues (resp start) = true := by
      have := hclean 0 (by omega)
      simpa using this
    have hshift200 : resp (start + 1 + k) = .status 200 := by
      rw [show start + 1 + k = start + (k + 1) by omega]
      exact h200
    have hshiftclean : ∀ j, j < k → continues (resp (start + 1 + j)) = true := by
      intro j hj
      rw [show start + 1 + j = start + (j + 1) by omega]
      exact hclean (j + 1) (by omega)
    have hrec := ih (start + 1) n (by omega) hshift200 hshiftclean
    rw [sendGo]
    cases hr : resp start with
    | status c =>
      have hcne : c ≠ 200 := by
        intro hEq
        rw [hr, hEq] at hc0
        simp [continues] at hc0
      dsimp only
      rw [if_neg hcne, show start + (k + 1) + 1 = start + 1 + k + 1 by omega]
      exact hrec
    | requestError =>
      dsimp only
      rw [show start + (k + 1) + 1 = start + 1 + k + 1 by omega]
      exact hrec
    | unexpectedError =>
      rw [hr] at hc0
      simp [continues] at hc0

lemma sendGo_true_exists (resp : ℕ → AttemptOutcome) :
    ∀ (fuel start : ℕ), (sendGo resp start fuel).1 = true →
      ∃ k, k < fuel ∧ resp (start + k) = .status 200 ∧
        ∀ j, j < k → continues (resp (start + j)) = true := by
  intro fuel
  induction fuel with
  | zero =>
    intro start h
    rw [sendGo] at h
    exact absurd h (by simp)
  | succ n ih =>
    intro start h
    rw [sendGo] at h
    cases hr : resp start with
    | status c =>
      rw [hr] at h
      dsimp only at h
      by_cases hc : c = 200
      · subst hc
        exact ⟨0, by omega, by simpa using hr, fun j hj => absurd hj (Nat.not_lt_zero j)⟩
      · rw [if_neg hc] at h
        obtain ⟨k, hk, h200, hclean⟩ := ih (start + 1) h
        refine ⟨k + 1, by omega, ?_, ?_⟩
        · rw [show start + (k + 1) = start + 1 + k by omega]
          exact h200
        · intro j hj
          cases j with
          | zero => simpa using (by simp [hr, continues, hc] :
              continues (resp start) = true)
          | succ j =>
            rw [show start + (j + 1) = start + 1 + j by omega]
            exact hclean j (by omega)
    | requestError =>
      rw [hr] at h
      dsimp only at h
      obtain ⟨k, hk, h200, hclean⟩ := ih (start + 1) h
      refine ⟨k + 1, by omega, ?_, ?_⟩
      · rw [show start + (k + 1) = start + 1 + k by omega]
        exact h200
      · intro j hj
        cases j with
        | zero => simpa using (by simp [hr, continues] :
            continues (resp start) = true)
        | succ j =>
          rw [show start + (j + 1) = start + 1 + j by omega]
          exact hclean j (by omega)
    | unexpectedError =>
      rw [hr] at h
      dsimp only at h
      exact absurd h (by simp)

/-- C1 (amended): with a configured monitor URL, `send_heartbeat`
returns true iff some attempt below `max_retries` receives HTTP status
exactly 200 with every earlier attempt a retriable outcome (non-200
status or transport error); on the first 200 it returns immediately
after that attempt; in particular 503, 503, 200 with three retries
yields true after exactly 3 attempts and 503, 503, 503 yields false
after 3 attempts. -/
theorem send_heartbeat_retry_spec (url : String) (hurl : url ≠ "")
    (resp : ℕ → AttemptOutcome) (m : ℕ) :
    ((sendHeartbeat (some url) resp m).1 = true ↔
      ∃ k, k < m ∧ resp k = .status 200 ∧ ∀ j, j < k → continues (resp j) = true) ∧
    (∀ k, k < m → resp k = .status 200 → (∀ j, j < k → continues (resp j) = true) →
      sendHeartbeat (some url) resp m = (true, k + 1)) ∧
    sendHeartbeat (some url) mock503x2then200 3 = (true, 3) ∧
    sendHeartbeat (some url) mock503 3 = (false, 3) := by
  have htruthy : pyTruthyStr (some url) = true := by
    simp [pyTruthyStr, hurl]
  refine ⟨?_, ?_, ?_, ?_⟩
  · unfold sendHeartbeat
    rw [if_pos htruthy]
    constructor
    · intro h
      obtain ⟨k, hk, h200, hclean⟩ := sendGo_true_exists resp m 0 h
      exact ⟨k, hk, by simpa using h200, fun j hj => by simpa using hclean j hj⟩
    · rintro ⟨k, hk, h200, hclean⟩
      rw [sendGo_of_success resp k 0 m hk (by simpa using h200)
        (fun j hj => by simpa using hclean j hj)]
  · intro k hk h200 hclean
    unfold sendHeartbeat
    rw [if_pos htruthy]
    have := sendGo_of_success resp k 0 m hk (by simpa using h200)
      (fun j hj => by simpa using hclean j hj)
    simpa using this
  · unfold sendHeartbeat
    rw [if_pos htruthy]
    decide
  · unfold sendHeartbeat
    rw [if_pos htruthy]
    decide

/-- C1, witness for the hypotheses of `send_heartbeat_retry_spec`:
at a concrete URL the 503, 503, 200 sequence yields true in exactly 3
attempts and the all-503 sequence yields false. -/
theorem send_heartbeat_retry_spec_witness :
    sendHeartbeat (some "u") mock503x2then200 3 = (true, 3) ∧
    sendHeartbeat (some "u") mock503 3 = (false, 3) :=
  ⟨(send_heartbeat_retry_spec "u" (by decide) mock503x2then200 3).2.2.1,
   (send_heartbeat_retry_spec "u" (by decide) mock503 3).2.2.2⟩

/-- C1, counterexample: a sequence of HTTP 201 responses (a 2xx status)
makes `send_heartbeat` return false after all 3 attempts, so success is
not `any 2xx` but exactly 200. -/
theorem send_heartbeat_2xx_cex :
    sendHeartbeat (some "u") (fun _ => .status 201) 3 = (false, 3) ∧
    200 ≤ 201 ∧ 201 < 300 := by
  refine ⟨?_, by omega, by omega⟩
  unfold sendHeartbeat
  rw [if_pos (by decide : pyTruthyStr (some "u") = true)]
  decide

/-- Embedding of the header construction in `send_heartbeat`. -/
def makeHeaders (apiKey : Option String) : List (String × String) :=
  [("Content-Type", "application/json"),
   ("Authorization", if pyTruthyStr apiKey then "Bearer " ++ apiKey.getD "" else "")]

/-- C10: the Authorization header is always present: value
`Bearer <credential>` when a (nonempty) credential is configured, and
the empty string when none is configured. -/
theorem auth_header_spec (apiKey : Option String) :
    ((makeHeaders apiKey).lookup "Authorization").isSome = true ∧
    (∀ s, s ≠ "" → (makeHeaders (some s)).lookup "Authorization" =
      some ("Bearer " ++ s)) ∧
    (makeHeaders none).lookup "Authorization" = some "" := by
  refine ⟨?_, ?_, ?_⟩
  · unfold makeHeaders
    simp [List.lookup]
  · intro s hs
    unfold makeHeaders
    simp [List.lookup, pyTruthyStr, hs]
  · unfold makeHeaders
    simp [List.lookup, pyTruthyStr]

/-- C10, witness for the hypotheses of `auth_header_spec`: with the
credential `k` the Authorization header value is `Bearer k`. -/
theorem auth_header_spec_witness :
    (makeHeaders (some "k")).lookup "Authorization" = some ("Bearer " ++ "k") :=
  (auth_header_spec (some "k")).2.1 "k" (by decide)

/-- Cache-related state of `ProjectTracker`: `_issues_cache` and
`_cache_time`. -/
structure TrackerState where
  issues_cache : Option (List Issue)
  cache_time : Option ℤ
deriving DecidableEq

/-- Outcome of one external GitHub list-issues call. -/
inductive FetchOutcome where
  | ok (items : List Issue)
  | httpError (code : ℕ)
  | exn
deriving DecidableEq

/-- The cache TTL design constant (`_cache_ttl = 300` seconds). -/
def cacheTTL : ℕ := 300

/-- The fetch path of `_fetch_github_issues`: on HTTP 200 the pull
requests are filtered out and the cache is replaced; on any error an
empty list is returned and the cache is left untouched. -/
def fetchFromApi (now : ℤ) (st : TrackerState) (response : FetchOutcome) :
    List Issue × TrackerState × Bool :=
  match response with
  | .ok items =>
    let iss := items.filter (fun i => !i.pull_request)
    (iss, { issues_cache := some iss, cache_time := some now }, true)
  | .httpError _ => ([], st, true)
  | .exn => ([], st, true)

/-- Embedding of `ProjectTracker._fetch_github_issues` as one step of a
state machine: given the configured repository, the current time, the
cache state and the outcome the external call would produce, returns
the issue list, the new state, and whether an external fetch was
performed.  The cache is served only when `_issues_cache` is truthy
(non-`None` and non-empty, by Python truthiness) and
`now - _cache_time < ttl`. -/
def fetchGithubIssues (repo : Option String) (now : ℤ) (st : TrackerState)
    (response : FetchOutcome) : List Issue × TrackerState × Bool :=
  if pyTruthyStr repo then
    match st.issues_cache, st.cache_time with
    | some c, some t =>
      if c ≠ [] ∧ now - t < (cacheTTL : ℤ) then (c, st, false)
      else fetchFromApi now st response
    | _, _ => fetchFromApi now st response
  else ([], st, false)

/-- C7, counterexample: a successful fetch that stores an empty issue
list is not served from cache: a second call within the TTL (at the
same instant) performs another external fetch, because an empty cached
list is falsy in the cache check. -/
theorem cache_empty_list_refetch_cex :
    (fetchGithubIssues (some "r") 0 ⟨none, none⟩ (.ok [])).2.2 = true ∧
    (fetchGithubIssues (some "r") 0
      (fetchGithubIssues (some "r") 0 ⟨none, none⟩ (.ok [])).2.1 (.ok [])).2.2 = true ∧
    (0 : ℤ) - 0 < (cacheTTL : ℤ) := by
  refine ⟨by decide, by decide, by decide⟩

/-- C7 (amended): after a fetch that stored a nonempty issue list, any
second call strictly within the 300-second TTL performs no external
fetch and returns the cached list unchanged, while a call at or past
the TTL performs an external fetch; the fetch stores the filtered list
with the capture timestamp. -/
theorem cache_ttl_spec (repo : String) (hrepo : repo ≠ "") (st0 : TrackerState)
    (items L : List Issue) (st1 : TrackerState) (t1 t2 : ℤ) (resp2 : FetchOutcome)
    (hcall : fetchGithubIssues (some repo) t1 st0 (.ok items) = (L, st1, true))
    (hne : L ≠ []) :
    st1.issues_cache = some L ∧ st1.cache_time = some t1 ∧
    (t2 - t1 < (cacheTTL : ℤ) →
      fetchGithubIssues (some repo) t2 st1 resp2 = (L, st1, false)) ∧
    ((cacheTTL : ℤ) ≤ t2 - t1 →
      (fetchGithubIssues (some repo) t2 st1 resp2).2.2 = true) := by
  have htruthy : pyTruthyStr (some repo) = true := by simp [pyTruthyStr, hrepo]
  have hfetch : fetchFromApi t1 st0 (.ok items) = (L, st1, true) →
      L = items.filter (fun i => !i.pull_request) ∧
      st1 = ⟨some (items.filter (fun i => !i.pull_request)), some t1⟩ := by
    intro h
    unfold fetchFromApi at h
    dsimp only at h
    exact ⟨(congrArg Prod.fst h).symm, (congrArg (fun p => p.2.1) h).symm⟩
  have hLst : L = items.filter (fun i => !i.pull_request) ∧
      st1 = ⟨some (items.filter (fun i => !i.pull_request)), some t1⟩ := by
    unfold fetchGithubIssues at hcall
    rw [if_pos htruthy] at hcall
    rcases hic : st0.issues_cache with _ | c <;> rcases hct : st0.cache_time with _ | t <;>
      rw [hic, hct] at hcall <;> dsimp only at hcall
    · exact hfetch hcall
    · exact hfetch hcall
    · exact hfetch hcall
    · by_cases hcond : c ≠ [] ∧ t1 - t < (cacheTTL : ℤ)
      · rw [if_pos hcond] at hcall
        exact absurd (congrArg (fun p => p.2.2) hcall) (by simp)
      · rw [if_neg hcond] at hcall
        exact hfetch hcall
  obtain ⟨hL, hst1⟩ := hLst
  refine ⟨by rw [hst1, hL], by rw [hst1], ?_, ?_⟩
  · intro htime
    unfold fetchGithubIssues
    rw [if_pos htruthy, hst1]
    dsimp only
    rw [if_pos ⟨hL ▸ hne, htime⟩, hL]
  · intro htime
    unfold fetchGithubIssues
    rw [if_pos htruthy, hst1]
    dsimp only
    rw [if_neg (fun hc => absurd hc.2 (by omega))]
    unfold fetchFromApi
    cases resp2 <;> rfl

/-- C7, witness for the hypotheses of `cache_ttl_spec`: after fetching
one issue at time 0, a second call at time 100 (within the TTL) returns
the cached list without fetching. -/
theorem cache_ttl_spec_witness :
    fetchGithubIssues (some "r") 100 ⟨some [sampleOpen], some 0⟩ (.ok []) =
      ([sampleOpen], ⟨some [sampleOpen], some 0⟩, false) := by
  have h := (cache_ttl_spec "r" (by decide) ⟨none, none⟩ [sampleOpen] [sampleOpen]
    ⟨some [sampleOpen], some 0⟩ 0 100 (.ok []) (by decide) (by decide)).2.2.1
    (by decide)
  exact h

/-- Clock reading at the moment of a local log append: the `%Y%m%d`
representations of `datetime.utcnow()` and `datetime.now()` (local
time), which name different calendar days near midnight. -/
structure Instant where
  utcDate : String
  localDate : String
deriving DecidableEq

/-- File name used by `_log_metrics_locally`: built from
`datetime.now()` (local time). -/
def logFileName (t : Instant) : String := "logs/heartbeat_" ++ t.localDate ++ ".json"

/-- Embedding of `HeartbeatAgent._log_metrics_locally` over a file
system modelled as a map from file name to appended records.  `writeOk`
models whether the directory creation / open / write raised; on failure
the exception is swallowed (the function still returns, with the file
system unchanged). -/
def logMetricsLocally (serialized : String) (t : Instant) (writeOk : Bool)
    (fs : String → List String) : String → List String :=
  if writeOk then
    fun name => if name = logFileName t then fs name ++ [serialized ++ "\n"] else fs name
  else fs

/-- C8, counterexample: at an instant whose UTC date is 20260101 but
whose local date is still 20251231, the log file is named by the local
date, not the UTC date the claim states. -/
theorem log_filename_not_utc_cex :
    logFileName ⟨"20260101", "20251231"⟩ = "logs/heartbeat_20251231.json" ∧
    logFileName ⟨"20260101", "20251231"⟩ ≠ "logs/heartbeat_20260101.json" := by
  refine ⟨by decide, by decide⟩

/-- C8 (amended): a successful append writes the serialized snapshot
followed by a newline record separator to the file named by the current
local (`datetime.now()`) calendar date, leaves every other file
unchanged, and a failed write is swallowed leaving the file system
unchanged. -/
theorem log_metrics_locally_spec (serialized : String) (t : Instant) (writeOk : Bool)
    (fs : String → List String) :
    (writeOk = true →
      logMetricsLocally serialized t writeOk fs (logFileName t) =
        fs (logFileName t) ++ [serialized ++ "\n"] ∧
      ∀ name, name ≠ logFileName t →
        logMetricsLocally serialized t writeOk fs name = fs name) ∧
    (writeOk = false → logMetricsLocally serialized t writeOk fs = fs) ∧
    logFileName t = "logs/heartbeat_" ++ t.localDate ++ ".json" := by
  refine ⟨?_, ?_, rfl⟩
  · intro hok
    subst hok
    unfold logMetricsLocally
    refine ⟨by simp, ?_⟩
    intro name hname
    simp [hname]
  · intro hfail
    subst hfail
    rfl

/-- C8, witness for the hypotheses of `log_metrics_locally_spec`: a
concrete successful append stores exactly one newline-terminated record
in the daily file, and a failed one changes nothing. -/
theorem log_metrics_locally_spec_witness :
    logMetricsLocally "m" ⟨"20260101", "20260101"⟩ true (fun _ => [])
      (logFileName ⟨"20260101", "20260101"⟩) = [] ++ ["m" ++ "\n"] ∧
    logMetricsLocally "m" ⟨"20260101", "20260101"⟩ false (fun _ => []) = fun _ => [] :=
  ⟨((log_metrics_locally_spec "m" ⟨"20260101", "20260101"⟩ true (fun _ => [])).1 rfl).1,
   (log_metrics_locally_spec "m" ⟨"20260101", "20260101"⟩ false (fun _ => [])).2.1 rfl⟩

/-- GitHub summary of `_collect_github_metrics`: either the explicit
`enabled: false` record or the enabled placeholder record. -/
inductive GithubMetrics where
  | disabled
  | enabled (repository : String) (open_issues open_prs recent_commits : ℕ)
deriving DecidableEq

/-- Placeholder agent summary of `_collect_agent_metrics`. -/
structure AgentMetrics where
  active_agents : ℕ
  total_agents : ℕ
  agents_status : List String
deriving DecidableEq

/-- Placeholder project summary of `_collect_project_metrics`. -/
structure ProjectMetrics where
  completion_percentage : ℕ
  total_issues : ℕ
  completed_issues : ℕ
  blocked_issues : ℕ
  issues_requiring_intervention : List String
deriving DecidableEq

/-- Embedding of `_collect_github_metrics`; the second component counts
external network calls made (the source is a placeholder that performs
none even when a repository is configured). -/
def collectGithubMetrics (githubRepo : Option String) : GithubMetrics × ℕ :=
  if pyTruthyStr githubRepo then (.enabled (githubRepo.getD "") 0 0 0, 0)
  else (.disabled, 0)

/-- Embedding of `_collect_agent_metrics` (placeholder, no network). -/
def collectAgentMetrics : AgentMetrics × ℕ := (⟨0, 0, []⟩, 0)

/-- Embedding of `_collect_project_metrics` (placeholder, no network). -/
def collectProjectMetrics : ProjectMetrics × ℕ := (⟨0, 0, 0, 0, []⟩, 0)

/-- One metrics snapshot assembled by `collect_metrics`.  The system
and resource sections are values read from local host probes (`os`,
`sys`, `psutil`), passed in as inputs; they involve no network. -/
structure Snapshot where
  swarm_id : String
  timestamp : ℤ
  system : List (String × String)
  agents : AgentMetrics
  github : GithubMetrics
  resources : List (String × ℚ)
  project : ProjectMetrics

/-- Embedding of `HeartbeatAgent.collect_metrics`; the second component
is the total number of external network calls made during collection. -/
def collectMetrics (swarmId : String) (ts : ℤ) (githubRepo : Option String)
    (systemProbe : List (String × String)) (resourceProbe : List (String × ℚ)) :
    Snapshot × ℕ :=
  let g := collectGithubMetrics githubRepo
  let a := collectAgentMetrics
  let p := collectProjectMetrics
  ({ swarm_id := swarmId, timestamp := ts, system := systemProbe, agents := a.1,
     github := g.1, resources := resourceProbe, project := p.1 },
   g.2 + a.2 + p.2)

/-- C9: with no repository configured, `collect_metrics` yields a
snapshot whose github section is exactly the disabled record, whose
project section is all zeros and empty, and no network call is made
during collection. -/
theorem collect_metrics_no_repo_spec (swarmId : String) (ts : ℤ)
    (systemProbe : List (String × String)) (resourceProbe : List (String × ℚ)) :
    (collectMetrics swarmId ts none systemProbe resourceProbe).1.github =
      GithubMetrics.disabled ∧
    (collectMetrics swarmId ts none systemProbe resourceProbe).1.project =
      ⟨0, 0, 0, 0, []⟩ ∧
    (collectMetrics swarmId ts none systemProbe resourceProbe).2 = 0 :=
  ⟨rfl, rfl, rfl⟩

end QiFlow
